import Mathlib

/-!
Verification of `scripts/json_to_csv.py`: a single-pass converter from a JSON
race-results document to a CSV file in the TrainingPeaks Virtual layout.

The embedding models JSON values as an inductive type.  JSON numbers are
carried by the decimal literal Python's `str()` would print for them (the
program never computes with numbers, it only passes them through).  Python
runtime errors that the script does not catch (`TypeError` on subscripting a
list with a string, `AttributeError` on calling `.get` on a non-dict,
`KeyError` on a missing dict key) are made explicit with `Except`.
-/

/-- A JSON value as loaded by `json.load`.  Objects are association lists;
JSON objects in scope have pairwise-distinct keys, so first-match lookup
agrees with Python's dict lookup. -/
inductive Json where
  | str : String → Json
  | num : String → Json
  | arr : List Json → Json
  | obj : List (String × Json) → Json

/-- Python errors this script can raise and does not catch. -/
inductive PyError where
  | typeError
  | attributeError
  | keyError
deriving DecidableEq, Repr

/-- First-match association-list lookup, modelling Python dict lookup. -/
def lookupKey (kvs : List (String × Json)) (k : String) : Option Json :=
  match kvs with
  | [] => none
  | (k0, v) :: rest => if k0 = k then some v else lookupKey rest k

mutual

/-- Python `repr` of a JSON-derived value.  Exact on numbers; strings are
rendered between single quotes as CPython does. -/
def pyRepr : Json → String
  | .str s => "\x27" ++ s ++ "\x27"
  | .num s => s
  | .arr xs => "[" ++ pyReprList xs ++ "]"
  | .obj kvs => "\x7b" ++ pyReprPairs kvs ++ "\x7d"

/-- Comma-separated `repr`s of list elements. -/
def pyReprList : List Json → String
  | [] => ""
  | [x] => pyRepr x
  | x :: y :: xs => pyRepr x ++ ", " ++ pyReprList (y :: xs)

/-- Comma-separated `key: value` renderings of dict items. -/
def pyReprPairs : List (String × Json) → String
  | [] => ""
  | [(k, v)] => "\x27" ++ k ++ "\x27: " ++ pyRepr v
  | (k, v) :: p :: kvs =>
      "\x27" ++ k ++ "\x27: " ++ pyRepr v ++ ", " ++ pyReprPairs (p :: kvs)

end

/-- Python `str()` of a value, as used in f-strings and by the csv writer:
identity on strings, the decimal literal on numbers, `repr` inside
containers. -/
def pyStr : Json → String
  | .str s => s
  | v => pyRepr v

/-- Python truth-value test `not x` (negated), for the `if not results:`
guard.  Empty containers and the empty string are falsy; a number is falsy
exactly when it is zero, which for the literals this program produces means
the literal `0` or `0.0`. -/
def Json.isFalsy : Json → Bool
  | .str s => s.isEmpty
  | .num s => s == "0" || s == "0.0"
  | .arr xs => xs.isEmpty
  | .obj kvs => kvs.isEmpty

/-- Substring test: Python `needle in haystack` on strings. -/
def strContains (hay needle : String) : Bool :=
  (List.range (hay.toList.length + 1)).any fun i =>
    needle.toList.isPrefixOf (hay.toList.drop i)

/-- Python membership `needle in data` for a string needle: key membership
on dicts, element membership on lists, substring on strings, `TypeError`
on numbers. -/
def pyContains (needle : String) : Json → Except PyError Bool
  | .obj kvs => .ok (kvs.any fun kv => kv.1 == needle)
  | .arr xs =>
      .ok (xs.any fun x =>
        match x with
        | .str s => s == needle
        | _ => false)
  | .str s => .ok (strContains s needle)
  | .num _ => .error .typeError

/-- Python subscript `data[k]` with a string key: dict lookup (`KeyError`
when absent), `TypeError` on any non-dict. -/
def pyGetItem (data : Json) (k : String) : Except PyError Json :=
  match data with
  | .obj kvs =>
      match lookupKey kvs k with
      | some v => .ok v
      | none => .error .keyError
  | _ => .error .typeError

/-- Python `data.get(k, d)`: total on dicts, `AttributeError` on anything
else. -/
def dictGet (data : Json) (k : String) (d : Json) : Except PyError Json :=
  match data with
  | .obj kvs => .ok ((lookupKey kvs k).getD d)
  | _ => .error .attributeError

/-- The document-level header read
`data.get(outer, data.get(inner, dflt))` used for `event_key` and `pen`. -/
def headerVal (data : Json) (outer inner : String) (dflt : Json) :
    Except PyError Json :=
  match dictGet data inner dflt with
  | .error e => .error e
  | .ok fallback => dictGet data outer fallback

/-- The three-shape input dispatch of `json_to_csv` (source lines 35-48):
`if 'results' in data: ... elif isinstance(data, list): ... else: ...`,
returning the record list value, the event key and the pen. -/
def dispatch (data : Json) : Except PyError (Json × Json × Json) :=
  match pyContains "results" data with
  | .error e => .error e
  | .ok true =>
      match pyGetItem data "results" with
      | .error e => .error e
      | .ok results =>
          match headerVal data "event_key" "EventKey" (.str "88000"),
                headerVal data "pen" "Pen" (.str "1") with
          | .ok event_key, .ok pen => .ok (results, event_key, pen)
          | .error e, _ => .error e
          | _, .error e => .error e
  | .ok false =>
      match data with
      | .arr _ => .ok (data, .str "88000", .str "1")
      | _ =>
          match headerVal data "event_key" "EventKey" (.str "88000"),
                headerVal data "pen" "Pen" (.str "1") with
          | .ok event_key, .ok pen => .ok (.arr [data], event_key, pen)
          | .error e, _ => .error e
          | _, .error e => .error e

/-- Record-level lookup `result.get(k1, result.get(k2, d))` on a dict given
as its key-value list. -/
def get2 (kvs : List (String × Json)) (k1 k2 : String) (d : Json) : Json :=
  (lookupKey kvs k1).getD ((lookupKey kvs k2).getD d)

/-- Record-level lookup with three candidate keys, used for the UID field:
`result.get(k1, result.get(k2, result.get(k3, d)))`. -/
def get3 (kvs : List (String × Json)) (k1 k2 k3 : String) (d : Json) : Json :=
  (lookupKey kvs k1).getD ((lookupKey kvs k2).getD ((lookupKey kvs k3).getD d))

/-- The row built for one result record (source lines 82-104), as the list
of the 21 field values in header order. -/
def rowFields (event_key pen : Json) (kvs : List (String × Json)) : List Json :=
  [ get2 kvs "EventKey" "event_key" event_key,
    get2 kvs "Pen" "pen" pen,
    get2 kvs "Position" "position" (.str ""),
    get2 kvs "Name" "name" (.str ""),
    get2 kvs "Team" "team" (.str ""),
    get2 kvs "Country" "country" (.str ""),
    get2 kvs "Time" "time" (.num "0"),
    get2 kvs "DeltaTime" "delta_time" (.num "0"),
    get2 kvs "Distance" "distance" (.num "32417.966"),
    get2 kvs "DeltaDistance" "delta_distance" (.num "0"),
    get2 kvs "Points" "points" (.num "0"),
    get2 kvs "Gender" "gender" (.str ""),
    get3 kvs "UID" "uid" "user_id" (.str ""),
    get2 kvs "ARR" "arr" (.str ""),
    get2 kvs "ARRBand" "arr_band" (.str ""),
    get2 kvs "EventRating" "event_rating" (.str ""),
    get2 kvs "EventRatingBand" "event_rating_band" (.str ""),
    get2 kvs "AgeBand" "age_band" (.str ""),
    get2 kvs "NGB" "ngb" (.str ""),
    get2 kvs "NGB ID" "ngb_id" (.str ""),
    get2 kvs "UCI ID" "uci_id" (.str "") ]

/-- Building the row for one iterated element: the `.get` calls raise
`AttributeError` unless the element is a dict. -/
def buildRow (event_key pen : Json) (result : Json) :
    Except PyError (List Json) :=
  match result with
  | .obj kvs => .ok (rowFields event_key pen kvs)
  | _ => .error .attributeError

/-- Python iteration `for result in results`: list elements, dict keys,
string characters; `TypeError` on a number. -/
def pyIter : Json → Except PyError (List Json)
  | .arr xs => .ok xs
  | .obj kvs => .ok (kvs.map fun kv => Json.str kv.1)
  | .str s => .ok (s.toList.map fun c => Json.str (String.singleton c))
  | .num _ => .error .typeError

/-- Quotechar doubling on a character list. -/
def csvEscapeChars : List Char → List Char
  | [] => []
  | c :: cs =>
      if c = '"' then c :: c :: csvEscapeChars cs
      else c :: csvEscapeChars cs

/-- Quotechar doubling inside a quoted CSV field. -/
def csvEscape (s : String) : String :=
  String.mk (csvEscapeChars s.toList)

/-- One CSV field under `csv.QUOTE_NONNUMERIC`: numbers are written
unquoted via `str()`, every other value is written as quoted text. -/
def csvField : Json → String
  | .num s => s
  | v => "\"" ++ csvEscape (pyStr v) ++ "\""

/-- One CSV row: comma-delimited fields, CRLF terminator (the csv module
default, kept because the file is opened with `newline=''`). -/
def csvLine (fs : List Json) : String :=
  String.intercalate "," (fs.map csvField) ++ "\r\n"

/-- The fixed 21 output field names, in header order (source lines 69-74). -/
def fieldnames : List String :=
  [ "EventKey", "Pen", "Position", "Name", "Team", "Country", "Time",
    "DeltaTime", "Distance", "DeltaDistance", "Points", "Gender", "UID",
    "ARR", "ARRBand", "EventRating", "EventRatingBand", "AgeBand",
    "NGB", "NGB ID", "UCI ID" ]

/-- The full text written to the output file: the `utf-8-sig` encoding
prefixes a byte-order mark, then the banner line and blank line written by
plain `f.write` with lone `\n`, then the header row and the data rows
written by the csv writer with CRLF. -/
def fileText (rows : List (List Json)) : String :=
  "\uFEFF" ++ "OVERALL INDIVIDUAL RESULTS:\n" ++ "\n"
    ++ csvLine (fieldnames.map Json.str)
    ++ String.join (rows.map csvLine)

/-- A local wall-clock reading, the input to `datetime.now().strftime`. -/
structure LocalTime where
  year : Nat
  month : Nat
  day : Nat
  hour : Nat
  minute : Nat
  second : Nat
deriving DecidableEq, Repr

/-- Decimal rendering of `n` left-padded with a zero digit to width `w`. -/
def padZero (w n : Nat) : String :=
  let s := toString n
  String.mk (List.replicate (w - s.length) (Char.ofNat 48)) ++ s

/-- `strftime('%Y%m%d_%H%M%S')` on a local time. -/
def strftimeYmdHMS (t : LocalTime) : String :=
  padZero 4 t.year ++ padZero 2 t.month ++ padZero 2 t.day ++ "_"
    ++ padZero 2 t.hour ++ padZero 2 t.minute ++ padZero 2 t.second

/-- The generated output file name (source lines 58-59). -/
def outputFileName (event_key pen : Json) (timestamp : String) : String :=
  "TPVirtual-Results-Event" ++ pyStr event_key ++ "-Pen" ++ pyStr pen
    ++ "-" ++ timestamp ++ ".csv"

/-- Observable outcome of one conversion call: either the "no results"
notice with no file written, or a file with its name, full text and the
reported record count. -/
inductive ConvertResult where
  | noResults
  | written (fileName : String) (text : String) (count : Nat)
deriving DecidableEq, Repr

/-- The conversion routine `json_to_csv`, on an already-parsed document and
the current local time (file-system effects abstracted to the returned
name/text; uncaught Python errors surface in `Except`). -/
def json_to_csv (data : Json) (now : LocalTime) :
    Except PyError ConvertResult :=
  match dispatch data with
  | .error e => .error e
  | .ok (results, event_key, pen) =>
      if results.isFalsy then
        .ok .noResults
      else
        match pyIter results with
        | .error e => .error e
        | .ok elems =>
            match elems.mapM (buildRow event_key pen) with
            | .error e => .error e
            | .ok rows =>
                .ok (.written
                  (outputFileName event_key pen (strftimeYmdHMS now))
                  (fileText rows) elems.length)

/-- Observable outcome of the CLI entry point. -/
inductive CliOutcome where
  | usageExit
  | notFoundExit (path : String)
  | convert (jsonFile outputFolder : String)
deriving DecidableEq, Repr

/-- The `main` function of the script (source lines 113-126), named
`mainEntry` here because `main` is reserved: `argv` includes the program
name at index 0; `onDisk` is the file-existence probe. -/
def mainEntry (argv : List String) (onDisk : String → Bool) : CliOutcome :=
  if argv.length < 3 then
    .usageExit
  else
    let json_file := argv.getD 1 ""
    let output_folder := argv.getD 2 ""
    if ! onDisk json_file then
      .notFoundExit json_file
    else
      .convert json_file output_folder

/-! ## Specification-side definitions

These restate the spec's field-alias table and ordered-lookup-with-fallback
in its own words, to be compared with the row construction embedded from
the source. -/

/-- Spec-side ordered candidate-key lookup: try each key in order, fall
back to the default. -/
def chainLookup (kvs : List (String × Json)) (keys : List String)
    (dflt : Json) : Json :=
  match keys with
  | [] => dflt
  | k :: ks => (lookupKey kvs k).getD (chainLookup kvs ks dflt)

/-- Spec-side alias table: output field name, candidate keys in lookup
order, per-field default. -/
def aliasTable (event_key pen : Json) : List (String × List String × Json) :=
  [ ("EventKey", ["EventKey", "event_key"], event_key),
    ("Pen", ["Pen", "pen"], pen),
    ("Position", ["Position", "position"], .str ""),
    ("Name", ["Name", "name"], .str ""),
    ("Team", ["Team", "team"], .str ""),
    ("Country", ["Country", "country"], .str ""),
    ("Time", ["Time", "time"], .num "0"),
    ("DeltaTime", ["DeltaTime", "delta_time"], .num "0"),
    ("Distance", ["Distance", "distance"], .num "32417.966"),
    ("DeltaDistance", ["DeltaDistance", "delta_distance"], .num "0"),
    ("Points", ["Points", "points"], .num "0"),
    ("Gender", ["Gender", "gender"], .str ""),
    ("UID", ["UID", "uid", "user_id"], .str ""),
    ("ARR", ["ARR", "arr"], .str ""),
    ("ARRBand", ["ARRBand", "arr_band"], .str ""),
    ("EventRating", ["EventRating", "event_rating"], .str ""),
    ("EventRatingBand", ["EventRatingBand", "event_rating_band"], .str ""),
    ("AgeBand", ["AgeBand", "age_band"], .str ""),
    ("NGB", ["NGB", "ngb"], .str ""),
    ("NGB ID", ["NGB ID", "ngb_id"], .str ""),
    ("UCI ID", ["UCI ID", "uci_id"], .str "") ]

/-- Document-level header value as the spec describes it: read either
spelling of the key from the root object, else the default. -/
def docHeader (kvs : List (String × Json)) (outer inner : String)
    (dflt : Json) : Json :=
  (lookupKey kvs outer).getD ((lookupKey kvs inner).getD dflt)

/-! ## Helper lemmas -/

/-- Key membership as computed by `pyContains` on a dict agrees with
`lookupKey` succeeding. -/
theorem anyKey_eq_lookupKey_isSome (kvs : List (String × Json)) (k : String) :
    (kvs.any fun kv => kv.1 == k) = (lookupKey kvs k).isSome := by
  induction kvs with
  | nil => rfl
  | cons kv rest ih =>
      by_cases h : kv.1 = k <;> simp [lookupKey, h, ih]

/-- The accumulator loop of `List.mapM` applied to `buildRow` over record
objects never fails and appends exactly the rows of those records, in
order. -/
theorem mapM_loop_buildRow_obj (event_key pen : Json)
    (recs : List (List (String × Json))) (acc : List (List Json)) :
    List.mapM.loop (buildRow event_key pen) (recs.map Json.obj) acc =
      .ok (acc.reverse ++ recs.map (rowFields event_key pen)) := by
  induction recs generalizing acc with
  | nil => simp [List.mapM.loop]; rfl
  | cons r rest ih =>
      simp only [List.map_cons, List.mapM.loop, buildRow]
      rw [show ((Except.ok (rowFields event_key pen r) :
          Except PyError (List Json)) >>= fun y =>
          List.mapM.loop (buildRow event_key pen) (rest.map Json.obj)
            (y :: acc)) =
        List.mapM.loop (buildRow event_key pen) (rest.map Json.obj)
          (rowFields event_key pen r :: acc) from rfl]
      rw [ih]
      simp

/-- Mapping `buildRow` over a list of record objects never fails and
produces exactly the rows of those records, in order. -/
theorem mapM_buildRow_obj (event_key pen : Json)
    (recs : List (List (String × Json))) :
    (recs.map Json.obj).mapM (buildRow event_key pen) =
      .ok (recs.map (rowFields event_key pen)) := by
  rw [show (recs.map Json.obj).mapM (buildRow event_key pen) =
    List.mapM.loop (buildRow event_key pen) (recs.map Json.obj) [] from rfl]
  rw [mapM_loop_buildRow_obj]
  rfl

/-- Inversion principle: every conversion that reports a written file went
through a successful dispatch, iteration and row construction, and its
name, text and count have the canonical shapes. -/
theorem json_to_csv_written_inv (data : Json) (now : LocalTime)
    (nm ct : String) (n : Nat)
    (h : json_to_csv data now = .ok (.written nm ct n)) :
    ∃ results event_key pen elems rows,
      dispatch data = .ok (results, event_key, pen)
      ∧ pyIter results = .ok elems
      ∧ elems.mapM (buildRow event_key pen) = .ok rows
      ∧ nm = outputFileName event_key pen (strftimeYmdHMS now)
      ∧ ct = fileText rows
      ∧ n = elems.length := by
  unfold json_to_csv at h
  split at h
  · exact absurd h (by simp)
  next results event_key pen hd =>
    split at h
    · exact absurd h (by simp)
    · split at h
      · exact absurd h (by simp)
      next elems hi =>
        split at h
        · exact absurd h (by simp)
        next rows hm =>
          obtain ⟨h1, h2, h3⟩ := ConvertResult.written.inj (Except.ok.inj h)
          exact ⟨results, event_key, pen, elems, rows, hd, hi, hm,
            h1.symm, h2.symm, h3.symm⟩

/-- Dispatch on a root object that has a `results` key. -/
theorem dispatch_obj_results (kvs : List (String × Json)) (r : Json)
    (h : lookupKey kvs "results" = some r) :
    dispatch (.obj kvs) = .ok (r,
      docHeader kvs "event_key" "EventKey" (.str "88000"),
      docHeader kvs "pen" "Pen" (.str "1")) := by
  have hk : (kvs.any fun kv => kv.1 == "results") = true := by
    rw [anyKey_eq_lookupKey_isSome, h]; rfl
  simp [dispatch, pyContains, hk, pyGetItem, h, headerVal, dictGet, docHeader]

/-- Dispatch on a root object without a `results` key: the object is
wrapped into a one-element record list. -/
theorem dispatch_obj_single (kvs : List (String × Json))
    (h : lookupKey kvs "results" = none) :
    dispatch (.obj kvs) = .ok (.arr [.obj kvs],
      docHeader kvs "event_key" "EventKey" (.str "88000"),
      docHeader kvs "pen" "Pen" (.str "1")) := by
  have hk : (kvs.any fun kv => kv.1 == "results") = false := by
    rw [anyKey_eq_lookupKey_isSome, h]; rfl
  simp [dispatch, pyContains, hk, headerVal, dictGet, docHeader]

/-- Dispatch on a root list none of whose elements is the string
`results`: the list is the record list and the headers default. -/
theorem dispatch_arr_direct (xs : List Json)
    (h : ∀ x ∈ xs, x ≠ Json.str "results") :
    dispatch (.arr xs) = .ok (.arr xs, .str "88000", .str "1") := by
  have hk : (xs.any fun x =>
      match x with
      | .str s => s == "results"
      | _ => false) = false := by
    rw [List.any_eq_false]
    intro x hx
    cases x with
    | str s =>
        have := h _ hx
        simp only [ne_eq, Json.str.injEq] at this ⊢
        simpa using this
    | num s => simp
    | arr ys => simp
    | obj fs => simp
  simp [dispatch, pyContains, hk]

/-! ## Claim theorems -/

/-- C1: for every result record, each of the 21 output fields is computed
by trying the PascalCase key, then the snake_case alternate (for UID: uid
then user_id), then the per-field default (document-derived EventKey/Pen,
empty string for text fields, 0 for Time/DeltaTime/DeltaDistance/Points,
32417.966 for Distance); the row construction never fails, and when both
spellings are present the PascalCase one wins (shown for Name). -/
theorem json_to_csv_field_resolution (event_key pen : Json)
    (kvs : List (String × Json)) :
    buildRow event_key pen (.obj kvs) =
      .ok ((aliasTable event_key pen).map fun e => chainLookup kvs e.2.1 e.2.2)
    ∧ (aliasTable event_key pen).map Prod.fst = fieldnames
    ∧ (∀ v, lookupKey kvs "Name" = some v →
        (rowFields event_key pen kvs).getD 3 (.str "") = v) := by
  refine ⟨?_, rfl, ?_⟩
  · simp [buildRow, rowFields, aliasTable, chainLookup, get2, get3]
  · intro v hp
    simp [rowFields, get2, hp, List.getD]

/-- C1 witness: a record with both `Name` and `name`, where the PascalCase
value wins and the row equals the alias-table resolution, and the empty
record, where every default fires and the row still resolves totally. -/
theorem json_to_csv_field_resolution_witness :
    buildRow (Json.str "88000") (Json.str "1")
        (.obj [("Name", .str "Pascal"), ("name", .str "snake")]) =
      .ok ((aliasTable (Json.str "88000") (Json.str "1")).map
        fun e => chainLookup [("Name", .str "Pascal"), ("name", .str "snake")]
          e.2.1 e.2.2)
    ∧ (rowFields (Json.str "88000") (Json.str "1")
        [("Name", .str "Pascal"), ("name", .str "snake")]).getD 3 (.str "")
      = .str "Pascal"
    ∧ buildRow (Json.str "88000") (Json.str "1") (.obj []) =
      .ok ((aliasTable (Json.str "88000") (Json.str "1")).map
        fun e => chainLookup [] e.2.1 e.2.2) := by
  have h := json_to_csv_field_resolution (Json.str "88000") (Json.str "1")
    [("Name", .str "Pascal"), ("name", .str "snake")]
  have h0 := json_to_csv_field_resolution (Json.str "88000") (Json.str "1") []
  exact ⟨h.1, h.2.2 (.str "Pascal") rfl, h0.1⟩

/-- C2: the three-shape dispatch: a root object with a `results` key uses
that key's value as the record list and derives event key and pen from the
root (either spelling, defaulting to `'88000'`/`'1'` when neither is
present); a root sequence of records is used directly with the defaults;
a root object without a `results` key is wrapped into a one-element record
list with the same header derivation. -/
theorem json_to_csv_shape_dispatch (kvs : List (String × Json))
    (xs : List Json) :
    (∀ r, lookupKey kvs "results" = some r →
      dispatch (.obj kvs) = .ok (r,
        docHeader kvs "event_key" "EventKey" (.str "88000"),
        docHeader kvs "pen" "Pen" (.str "1")))
    ∧ ((∀ x ∈ xs, ∃ fs, x = Json.obj fs) →
      dispatch (.arr xs) = .ok (.arr xs, .str "88000", .str "1"))
    ∧ (lookupKey kvs "results" = none →
      dispatch (.obj kvs) = .ok (.arr [.obj kvs],
        docHeader kvs "event_key" "EventKey" (.str "88000"),
        docHeader kvs "pen" "Pen" (.str "1")))
    ∧ (lookupKey kvs "event_key" = none → lookupKey kvs "EventKey" = none →
      docHeader kvs "event_key" "EventKey" (.str "88000") = .str "88000")
    ∧ (lookupKey kvs "pen" = none → lookupKey kvs "Pen" = none →
      docHeader kvs "pen" "Pen" (.str "1") = .str "1") := by
  refine ⟨fun r h1 => dispatch_obj_results kvs r h1, ?_,
    dispatch_obj_single kvs, ?_, ?_⟩
  · intro h2
    refine dispatch_arr_direct xs ?_
    intro x hx
    obtain ⟨fs, rfl⟩ := h2 x hx
    simp
  · intro h3 h4
    simp [docHeader, h3, h4]
  · intro h3 h4
    simp [docHeader, h3, h4]

/-- C2 witness: a `results` document carrying event_key 88022 and pen 3, a
bare two-record sequence, and a plain single-record object, dispatched as
the claim states; the header defaults fire when neither spelling is
present. -/
theorem json_to_csv_shape_dispatch_witness :
    dispatch (.obj [("event_key", .num "88022"), ("pen", .num "3"),
        ("results", .arr [.obj [("name", .str "X")]])]) =
      .ok (.arr [.obj [("name", .str "X")]], .num "88022", .num "3")
    ∧ dispatch (.arr [.obj [("name", .str "X")], .obj [("name", .str "Y")]]) =
      .ok (.arr [.obj [("name", .str "X")], .obj [("name", .str "Y")]],
        .str "88000", .str "1")
    ∧ dispatch (.obj [("name", .str "Solo")]) =
      .ok (.arr [.obj [("name", .str "Solo")]], .str "88000", .str "1")
    ∧ docHeader [("name", .str "Solo")] "event_key" "EventKey" (.str "88000")
      = .str "88000"
    ∧ docHeader [("name", .str "Solo")] "pen" "Pen" (.str "1")
      = .str "1" := by
  have ha := json_to_csv_shape_dispatch
    [("event_key", .num "88022"), ("pen", .num "3"),
      ("results", .arr [.obj [("name", .str "X")]])]
    [.obj [("name", .str "X")], .obj [("name", .str "Y")]]
  have hb := json_to_csv_shape_dispatch [("name", .str "Solo")] []
  refine ⟨?_, ?_, ?_, hb.2.2.2.1 rfl rfl, hb.2.2.2.2 rfl rfl⟩
  · have h1 := ha.1 (.arr [.obj [("name", .str "X")]]) rfl
    simpa [docHeader, lookupKey] using h1
  · refine ha.2.1 ?_
    intro x hx
    simp only [List.mem_cons, List.not_mem_nil, or_false] at hx
    rcases hx with rfl | rfl
    · exact ⟨_, rfl⟩
    · exact ⟨_, rfl⟩
  · have h3 := hb.2.2.1 rfl
    simpa [docHeader, lookupKey] using h3

/-- C3: the number of data rows equals the number of input records, in the
same order with no reordering, filtering or duplication (the row list is
the record list mapped through the field resolution), and the
single-object input shape yields exactly one data row. -/
theorem json_to_csv_row_count_order (kvs kvs' : List (String × Json))
    (recs : List (List (String × Json))) (now : LocalTime)
    (h1 : lookupKey kvs "results" = some (.arr (recs.map Json.obj)))
    (h2 : recs ≠ [])
    (h3 : lookupKey kvs' "results" = none) :
    json_to_csv (.obj kvs) now =
      .ok (.written
        (outputFileName (docHeader kvs "event_key" "EventKey" (.str "88000"))
          (docHeader kvs "pen" "Pen" (.str "1")) (strftimeYmdHMS now))
        (fileText (recs.map (rowFields
          (docHeader kvs "event_key" "EventKey" (.str "88000"))
          (docHeader kvs "pen" "Pen" (.str "1")))))
        recs.length)
    ∧ json_to_csv (.obj kvs') now =
      .ok (.written
        (outputFileName (docHeader kvs' "event_key" "EventKey" (.str "88000"))
          (docHeader kvs' "pen" "Pen" (.str "1")) (strftimeYmdHMS now))
        (fileText [rowFields
          (docHeader kvs' "event_key" "EventKey" (.str "88000"))
          (docHeader kvs' "pen" "Pen" (.str "1")) kvs'])
        1) := by
  constructor
  · have hd := dispatch_obj_results kvs (.arr (recs.map Json.obj)) h1
    have hne : (recs.map Json.obj).isEmpty = false := by
      simp [List.isEmpty_iff, h2]
    simp [json_to_csv, hd, Json.isFalsy, hne, pyIter, mapM_loop_buildRow_obj]
  · have hd := dispatch_obj_single kvs' h3
    have hm := mapM_loop_buildRow_obj
      (docHeader kvs' "event_key" "EventKey" (.str "88000"))
      (docHeader kvs' "pen" "Pen" (.str "1")) [kvs'] []
    simp only [List.map, List.reverse_nil, List.nil_append] at hm
    simp [json_to_csv, hd, Json.isFalsy, pyIter, hm]

/-- C3 witness: a two-record `results` document gives two rows in input
order and count 2; a single-object document gives one row. -/
theorem json_to_csv_row_count_order_witness :
    json_to_csv (.obj [("results", .arr
        [.obj [("name", .str "X")], .obj [("name", .str "Y")]])])
      ⟨2025, 3, 7, 14, 5, 9⟩ =
      .ok (.written
        (outputFileName (.str "88000") (.str "1")
          (strftimeYmdHMS ⟨2025, 3, 7, 14, 5, 9⟩))
        (fileText [rowFields (.str "88000") (.str "1") [("name", .str "X")],
          rowFields (.str "88000") (.str "1") [("name", .str "Y")]])
        2)
    ∧ json_to_csv (.obj [("name", .str "Solo")]) ⟨2025, 3, 7, 14, 5, 9⟩ =
      .ok (.written
        (outputFileName (.str "88000") (.str "1")
          (strftimeYmdHMS ⟨2025, 3, 7, 14, 5, 9⟩))
        (fileText [rowFields (.str "88000") (.str "1")
          [("name", .str "Solo")]])
        1) := by
  have h := json_to_csv_row_count_order
    [("results", .arr [.obj [("name", .str "X")], .obj [("name", .str "Y")]])]
    [("name", .str "Solo")]
    [[("name", .str "X")], [("name", .str "Y")]]
    ⟨2025, 3, 7, 14, 5, 9⟩
    rfl (by simp) rfl
  constructor
  · have h1 := h.1
    simpa [docHeader, lookupKey] using h1
  · have h2 := h.2
    simpa [docHeader, lookupKey] using h2

/-- C4: every written output begins with the byte-order mark, then the
literal banner line, a blank line, and the header row of exactly the 21
fixed field names in fixed order, before any data row. -/
theorem json_to_csv_output_layout (data : Json) (now : LocalTime)
    (nm ct : String) (n : Nat)
    (h : json_to_csv data now = .ok (.written nm ct n)) :
    (∃ rows : List (List Json),
      ct = "\uFEFF" ++ "OVERALL INDIVIDUAL RESULTS:\n" ++ "\n"
        ++ csvLine (fieldnames.map Json.str)
        ++ String.join (rows.map csvLine))
    ∧ fieldnames =
      [ "EventKey", "Pen", "Position", "Name", "Team", "Country", "Time",
        "DeltaTime", "Distance", "DeltaDistance", "Points", "Gender", "UID",
        "ARR", "ARRBand", "EventRating", "EventRatingBand", "AgeBand",
        "NGB", "NGB ID", "UCI ID" ]
    ∧ fieldnames.length = 21 := by
  obtain ⟨results, event_key, pen, elems, rows, _, _, _, _, hct, _⟩ :=
    json_to_csv_written_inv data now nm ct n h
  exact ⟨⟨rows, hct⟩, rfl, rfl⟩

/-- C4 witness: a concrete conversion writes a file, and its text has the
banner, blank line and 21-name header prefix. -/
theorem json_to_csv_output_layout_witness :
    (∃ rows : List (List Json),
      fileText [rowFields (.str "88000") (.str "1")
          [("name", .str "Solo")]] =
        "\uFEFF" ++ "OVERALL INDIVIDUAL RESULTS:\n" ++ "\n"
        ++ csvLine (fieldnames.map Json.str)
        ++ String.join (rows.map csvLine))
    ∧ fieldnames.length = 21 := by
  have h := json_to_csv_output_layout (.obj [("name", .str "Solo")])
    ⟨2025, 3, 7, 14, 5, 9⟩
    (outputFileName (.str "88000") (.str "1")
      (strftimeYmdHMS ⟨2025, 3, 7, 14, 5, 9⟩))
    (fileText [rowFields (.str "88000") (.str "1") [("name", .str "Solo")]])
    1 (by rfl)
  exact ⟨h.1, h.2.2⟩

/-- C5: an empty record list is a non-error no-op: the converter reports
the no-results notice and writes no file; in particular the input
consisting of a `results` key bound to the empty list. -/
theorem json_to_csv_empty_results (data results event_key pen : Json)
    (now : LocalTime)
    (hd : dispatch data = .ok (results, event_key, pen))
    (hf : results.isFalsy = true) :
    json_to_csv data now = .ok .noResults
    ∧ json_to_csv (.obj [("results", .arr [])]) now = .ok .noResults := by
  constructor
  · simp [json_to_csv, hd, hf]
  · rfl

/-- C5 witness: the concrete input with an empty `results` list. -/
theorem json_to_csv_empty_results_witness :
    json_to_csv (.obj [("results", .arr [])]) ⟨2025, 3, 7, 14, 5, 9⟩ =
      .ok .noResults := by
  exact (json_to_csv_empty_results (.obj [("results", .arr [])])
    (.arr []) (.str "88000") (.str "1") ⟨2025, 3, 7, 14, 5, 9⟩
    rfl rfl).1

/-- C6: in every written data row the fields are comma-delimited; numeric
values are written unquoted via their decimal rendering, and every
non-numeric value is written as quoted text with internal quote characters
doubled. -/
theorem csv_quoting (s : String) (v : Json) (fs : List Json)
    (hv : ∀ u, v ≠ Json.num u) :
    csvField (Json.num s) = s
    ∧ csvField v = "\"" ++ csvEscape (pyStr v) ++ "\""
    ∧ csvLine fs = String.intercalate "," (fs.map csvField) ++ "\r\n" := by
  refine ⟨rfl, ?_, rfl⟩
  cases v with
  | str t => rfl
  | num u => exact absurd rfl (hv u)
  | arr ys => rfl
  | obj gs => rfl

/-- C6 witness: the default distance stays an unquoted numeric, a name is
quoted, and a concrete row line is the comma-joined fields plus CRLF. -/
theorem csv_quoting_witness :
    csvField (Json.num "32417.966") = "32417.966"
    ∧ csvField (Json.str "A. Runner") = "\"A. Runner\""
    ∧ csvLine [Json.num "1", Json.str "A. Runner"] =
      "1,\"A. Runner\"\r\n" := by
  have h := csv_quoting "32417.966" (.str "A. Runner")
    [Json.num "1", Json.str "A. Runner"]
    (fun u hu => Json.noConfusion hu)
  exact ⟨h.1, h.2.1.trans (by rfl), h.2.2.trans (by rfl)⟩

/-- C7: the generated file name is exactly
`TPVirtual-Results-Event{eventKey}-Pen{pen}-{timestamp}.csv` with the
document-derived event key and pen and the local time rendered
`YYYYMMDD_HHMMSS`; for event key 88022 and pen 3 the name has the form
`TPVirtual-Results-Event88022-Pen3-{timestamp}.csv`. -/
theorem json_to_csv_filename (event_key pen : Json) (ts : String)
    (t now : LocalTime) :
    outputFileName event_key pen ts =
      "TPVirtual-Results-Event" ++ pyStr event_key ++ "-Pen" ++ pyStr pen
        ++ "-" ++ ts ++ ".csv"
    ∧ strftimeYmdHMS t =
      padZero 4 t.year ++ padZero 2 t.month ++ padZero 2 t.day ++ "_"
        ++ padZero 2 t.hour ++ padZero 2 t.minute ++ padZero 2 t.second
    ∧ (∃ ct n, json_to_csv (.obj [("event_key", .num "88022"),
        ("pen", .num "3"),
        ("results", .arr [.obj [("position", .num "1"),
          ("name", .str "A. Runner")]])]) now =
      .ok (.written ("TPVirtual-Results-Event88022-Pen3-"
        ++ strftimeYmdHMS now ++ ".csv") ct n)) := by
  refine ⟨rfl, rfl, fileText [rowFields (.num "88022") (.num "3")
    [("position", .num "1"), ("name", .str "A. Runner")]], 1, ?_⟩
  rfl

/-- C8: with fewer than two positional arguments the CLI exits via the
usage path without consulting the file system (the outcome is the same for
every existence probe); with a json file that does not exist it exits via
the not-found path naming that file, before any parse. -/
theorem main_cli_errors (argv : List String) (onDisk onDisk2 : String → Bool)
    (p f q : String) (rest : List String)
    (hshort : argv.length < 3) (hmiss : onDisk f = false) :
    mainEntry argv onDisk = .usageExit
    ∧ mainEntry argv onDisk2 = .usageExit
    ∧ mainEntry (p :: f :: q :: rest) onDisk = .notFoundExit f := by
  refine ⟨?_, ?_, ?_⟩
  · simp [mainEntry, hshort]
  · simp [mainEntry, hshort]
  · simp [mainEntry, hmiss]

/-- C8 witness: one-argument call and a missing concrete file. -/
theorem main_cli_errors_witness :
    mainEntry ["json_to_csv.py"] (fun _ => true) = .usageExit
    ∧ mainEntry ["json_to_csv.py", "race.json", "out"] (fun _ => false) =
      .notFoundExit "race.json" := by
  have h := main_cli_errors ["json_to_csv.py"] (fun _ => false)
    (fun _ => true) "json_to_csv.py" "race.json" "out" []
    (by decide) rfl
  exact ⟨h.2.1, h.2.2⟩

/-- C9: the banner line and the blank line end in a lone line feed while
the header row and every data row end in carriage return plus line feed,
so one output file mixes the two line-terminator conventions. -/
theorem output_line_terminators (rows : List (List Json)) (fs : List Json) :
    fileText rows = "\uFEFF" ++ "OVERALL INDIVIDUAL RESULTS:\n" ++ "\n"
        ++ csvLine (fieldnames.map Json.str)
        ++ String.join (rows.map csvLine)
    ∧ csvLine fs = String.intercalate "," (fs.map csvField) ++ "\r\n"
    ∧ strContains "OVERALL INDIVIDUAL RESULTS:\n\n" "\r" = false
    ∧ strContains (csvLine []) "\r\n" = true :=
  ⟨rfl, rfl, by decide, by decide⟩

/-- C10: on a root list the `results` check is element membership, so a
list containing the string `results` takes the first branch and the
conversion fails with an uncaught `TypeError`; the bare-sequence branch is
reached exactly when no element equals that string. -/
theorem list_root_results_dispatch (xs ys : List Json) (now : LocalTime)
    (hmem : Json.str "results" ∈ xs)
    (hys : ∀ y ∈ ys, y ≠ Json.str "results") :
    json_to_csv (.arr xs) now = .error .typeError
    ∧ dispatch (.arr ys) = .ok (.arr ys, .str "88000", .str "1") := by
  constructor
  · have hk : (xs.any fun x =>
        match x with
        | .str s => s == "results"
        | _ => false) = true := by
      rw [List.any_eq_true]
      exact ⟨Json.str "results", hmem, by simp⟩
    have hd : dispatch (.arr xs) = .error .typeError := by
      simp [dispatch, pyContains, hk, pyGetItem]
    simp [json_to_csv, hd]
  · exact dispatch_arr_direct ys hys

/-- C10 witness: the list `["results", {}]` fails with `TypeError`; a list
of two record objects dispatches to the bare-sequence branch. -/
theorem list_root_results_dispatch_witness :
    json_to_csv (.arr [.str "results", .obj []]) ⟨2025, 3, 7, 14, 5, 9⟩ =
      .error .typeError
    ∧ dispatch (.arr [.obj [("name", .str "X")]]) =
      .ok (.arr [.obj [("name", .str "X")]], .str "88000", .str "1") := by
  exact list_root_results_dispatch [.str "results", .obj []]
    [.obj [("name", .str "X")]] ⟨2025, 3, 7, 14, 5, 9⟩
    (List.mem_cons_self _ _)
    (by intro y hy
        simp only [List.mem_cons, List.not_mem_nil, or_false] at hy
        subst hy
        intro hne
        exact Json.noConfusion hne)
